import Mathlib

/-!
Verification of the stock-reservation / payment-gated order-creation core of
the DineFlow restaurant-ordering backend.

Shallow embedding: Django model methods and view/cleanup functions are
translated into pure Lean functions over explicit record states.  Django's
`transaction.atomic` blocks (raise ⇒ full rollback) are embedded as total
functions returning either the post-commit state or an error with the
pre-transaction state unchanged.  Decimal money amounts are embedded as ℚ;
integer DB columns as ℤ.
-/

namespace DineFlow

/-- One menu item's stock/availability columns, from
`Orderflow/Backend/apps/menu/models.py` (class `MenuItem`).
`stock_quantity = none` models the NULL "unlimited stock" case. -/
structure MenuItem where
  stock_quantity : Option Int
  reserved_stock : Int
  is_available : Bool
  unavailable_reason : String
  deriving Repr, DecidableEq

namespace MenuItem

/-- `MenuItem.reserve_stock` (menu/models.py lines 136-157): if
`stock_quantity` is NULL succeed with no change; otherwise the single
conditional UPDATE guarded by `stock_quantity >= reserved_stock + quantity`
increments `reserved_stock` by `quantity`, else no row matches and the
method returns False with no change. -/
def reserve_stock (it : MenuItem) (quantity : Int) : MenuItem × Bool :=
  match it.stock_quantity with
  | none => (it, true)
  | some total =>
    if it.reserved_stock + quantity ≤ total then
      ({ it with reserved_stock := it.reserved_stock + quantity }, true)
    else
      (it, false)

/-- `MenuItem.confirm_sale` (menu/models.py lines 159-191): NULL stock is a
no-op returning True.  Otherwise one UPDATE sets
`stock_quantity := stock_quantity - quantity` and
`reserved_stock := reserved_stock - quantity` floored at 0 (the `Case/When`),
then the refreshed row is clamped: if `stock_quantity <= 0` it is set to 0,
`is_available := False`, `unavailable_reason := "Out of stock"`. -/
def confirm_sale (it : MenuItem) (quantity : Int) : MenuItem × Bool :=
  match it.stock_quantity with
  | none => (it, true)
  | some total =>
    let reservedAfter : Int :=
      if quantity ≤ it.reserved_stock then it.reserved_stock - quantity else 0
    if total - quantity ≤ 0 then
      ({ it with stock_quantity := some 0
                 reserved_stock := reservedAfter
                 is_available := false
                 unavailable_reason := "Out of stock" }, true)
    else
      ({ it with stock_quantity := some (total - quantity)
                 reserved_stock := reservedAfter }, true)

/-- `MenuItem.release_stock` (menu/models.py lines 193-209): NULL stock is a
no-op; otherwise `reserved_stock := reserved_stock - quantity` floored at 0
(the `Case/When`); `stock_quantity` is never touched. -/
def release_stock (it : MenuItem) (quantity : Int) : MenuItem :=
  match it.stock_quantity with
  | none => it
  | some _ =>
    { it with reserved_stock :=
        if quantity ≤ it.reserved_stock then it.reserved_stock - quantity else 0 }

/-- `MenuItem.restock` (menu/models.py lines 211-229): with NULL stock the
quantity is assigned in memory and persisted only by the
`mark_available and not is_available` save; with non-NULL stock the UPDATE
adds `quantity`.  The availability flags are cleared only when
`mark_available` holds and the item was unavailable. -/
def restock (it : MenuItem) (quantity : Int) (mark_available : Bool) : MenuItem :=
  match it.stock_quantity with
  | none =>
    if mark_available && !it.is_available then
      { it with stock_quantity := some quantity
                is_available := true
                unavailable_reason := "" }
    else it
  | some total =>
    let it' := { it with stock_quantity := some (total + quantity) }
    if mark_available && !it.is_available then
      { it' with is_available := true, unavailable_reason := "" }
    else it'

end MenuItem

/-- The §8 Stock Ledger invariant, strengthened with the auxiliary fact
(needed for `restock` preservation, and true of every reachable state)
that an item with NULL stock has nothing reserved. -/
def StockInv (it : MenuItem) : Prop :=
  0 ≤ it.reserved_stock ∧
    match it.stock_quantity with
    | some total => it.reserved_stock ≤ total
    | none => it.reserved_stock = 0

instance (it : MenuItem) : Decidable (StockInv it) := by
  unfold StockInv
  cases it.stock_quantity <;> exact instDecidableAnd

end DineFlow

open DineFlow DineFlow.MenuItem

/-- C3: `reserve_stock` succeeds trivially with no state change when
`stock_quantity` is NULL; otherwise it succeeds and adds exactly `qty` to
`reserved_stock` iff `stock_quantity - reserved_stock ≥ qty`, and on
failure returns false with the item (both counters included) unchanged. -/
theorem C3_reserve_stock_spec (it : MenuItem) (qty : Int) :
    (it.stock_quantity = none → it.reserve_stock qty = (it, true)) ∧
    (∀ total, it.stock_quantity = some total →
      ((qty ≤ total - it.reserved_stock →
          it.reserve_stock qty =
            ({ it with reserved_stock := it.reserved_stock + qty }, true)) ∧
       (¬ qty ≤ total - it.reserved_stock →
          it.reserve_stock qty = (it, false)))) := by
  refine ⟨fun h => by simp [reserve_stock, h], fun total h => ⟨fun hle => ?_, fun hgt => ?_⟩⟩
  · have : it.reserved_stock + qty ≤ total := by omega
    simp [reserve_stock, h, this]
  · have : ¬ it.reserved_stock + qty ≤ total := by omega
    simp [reserve_stock, h, this]

/-- Witness for C3 at a concrete item: 5 total, 1 reserved; reserving 2
succeeds and yields 3 reserved, while reserving 7 fails and changes nothing. -/
theorem C3_reserve_stock_spec_witness :
    ((⟨some 5, 1, true, ""⟩ : MenuItem).reserve_stock 2 =
      (⟨some 5, 3, true, ""⟩, true)) ∧
    ((⟨some 5, 1, true, ""⟩ : MenuItem).reserve_stock 7 =
      (⟨some 5, 1, true, ""⟩, false)) :=
  ⟨((C3_reserve_stock_spec _ 2).2 5 rfl).1 (by decide),
   ((C3_reserve_stock_spec _ 7).2 5 rfl).2 (by decide)⟩

/-- C5: `confirm_sale` with NULL stock changes nothing; otherwise it
decrements `stock_quantity` by `qty`, decrements `reserved_stock` by
`min qty reserved_stock`, and when the resulting stock is ≤ 0 it clamps it
to 0, clears `is_available` and sets `unavailable_reason := "Out of stock"`. -/
theorem C5_confirm_sale_spec (it : MenuItem) (qty : Int) :
    (it.stock_quantity = none → it.confirm_sale qty = (it, true)) ∧
    (∀ total, it.stock_quantity = some total →
      (it.confirm_sale qty).1.reserved_stock = it.reserved_stock - min qty it.reserved_stock ∧
      ((total - qty ≤ 0 →
          (it.confirm_sale qty).1.stock_quantity = some 0 ∧
          (it.confirm_sale qty).1.is_available = false ∧
          (it.confirm_sale qty).1.unavailable_reason = "Out of stock") ∧
       (0 < total - qty →
          (it.confirm_sale qty).1.stock_quantity = some (total - qty) ∧
          (it.confirm_sale qty).1.is_available = it.is_available ∧
          (it.confirm_sale qty).1.unavailable_reason = it.unavailable_reason))) := by
  refine ⟨fun h => by simp [confirm_sale, h], fun total h => ?_⟩
  have hres : (if qty ≤ it.reserved_stock then it.reserved_stock - qty else 0)
      = it.reserved_stock - min qty it.reserved_stock := by
    by_cases hq : qty ≤ it.reserved_stock
    · simp [hq, min_eq_left hq]
    · have : min qty it.reserved_stock = it.reserved_stock := min_eq_right (by omega)
      simp [hq, this]
  by_cases hc : total - qty ≤ 0
  · refine ⟨?_, ⟨fun _ => ?_, fun hpos => absurd hpos (by omega)⟩⟩ <;>
      simp [confirm_sale, h, hc, hres]
  · refine ⟨?_, ⟨fun hle => absurd hle hc, fun _ => ?_⟩⟩ <;>
      simp [confirm_sale, h, hc, hres]

/-- Witness for C5: selling 2 of an item with 5 total / 2 reserved leaves
3 total / 0 reserved; selling 2 of an item with 2 total depletes it and
marks it out of stock. -/
theorem C5_confirm_sale_spec_witness :
    (((⟨some 5, 2, true, ""⟩ : MenuItem).confirm_sale 2).1.reserved_stock = 0) ∧
    (((⟨some 2, 2, true, ""⟩ : MenuItem).confirm_sale 2).1.stock_quantity = some 0) ∧
    (((⟨some 2, 2, true, ""⟩ : MenuItem).confirm_sale 2).1.unavailable_reason
        = "Out of stock") := by
  refine ⟨?_, ?_, ?_⟩
  · have h := (C5_confirm_sale_spec ⟨some 5, 2, true, ""⟩ 2).2 5 rfl
    rw [h.1]; decide
  · exact (((C5_confirm_sale_spec ⟨some 2, 2, true, ""⟩ 2).2 2 rfl).2.1
      (by decide)).1
  · exact (((C5_confirm_sale_spec ⟨some 2, 2, true, ""⟩ 2).2 2 rfl).2.1
      (by decide)).2.2


namespace DineFlow

/-- `reserve_stock` preserves the Stock Ledger invariant. -/
theorem stockInv_reserve : ∀ (it : MenuItem) (qty : Int), StockInv it → 0 ≤ qty →
    StockInv (it.reserve_stock qty).1
  | ⟨none, r, av, ur⟩, qty, h, _ => h
  | ⟨some t, r, av, ur⟩, qty, h, hq => by
    obtain ⟨h0, h1⟩ := h
    simp only at h0 h1
    by_cases hc : r + qty ≤ t <;>
      simp [StockInv, MenuItem.reserve_stock, hc] <;> omega

/-- `confirm_sale`, called for a quantity that was previously reserved,
preserves the Stock Ledger invariant. -/
theorem stockInv_confirm : ∀ (it : MenuItem) (qty : Int), StockInv it → 0 ≤ qty →
    qty ≤ it.reserved_stock → StockInv (it.confirm_sale qty).1
  | ⟨none, r, av, ur⟩, qty, h, _, _ => h
  | ⟨some t, r, av, ur⟩, qty, h, hq, hres => by
    obtain ⟨h0, h1⟩ := h
    simp only at h0 h1 hres
    by_cases hc : t - qty ≤ 0 <;>
      simp [StockInv, MenuItem.confirm_sale, hc, hres] <;> omega

/-- `release_stock` preserves the Stock Ledger invariant. -/
theorem stockInv_release : ∀ (it : MenuItem) (qty : Int), StockInv it → 0 ≤ qty →
    StockInv (it.release_stock qty)
  | ⟨none, r, av, ur⟩, qty, h, _ => h
  | ⟨some t, r, av, ur⟩, qty, h, hq => by
    obtain ⟨h0, h1⟩ := h
    simp only at h0 h1
    by_cases hc : qty ≤ r <;>
      simp [StockInv, MenuItem.release_stock, hc] <;> omega

/-- `restock` preserves the Stock Ledger invariant. -/
theorem stockInv_restock : ∀ (it : MenuItem) (qty : Int) (b : Bool), StockInv it → 0 ≤ qty →
    StockInv (it.restock qty b)
  | ⟨none, r, av, ur⟩, qty, b, h, hq => by
    obtain ⟨h0, h1⟩ := h
    simp only at h0 h1
    by_cases hm : (b && !av) = true <;>
      simp [StockInv, MenuItem.restock, hm] <;> omega
  | ⟨some t, r, av, ur⟩, qty, b, h, hq => by
    obtain ⟨h0, h1⟩ := h
    simp only at h0 h1
    by_cases hm : (b && !av) = true <;>
      simp [StockInv, MenuItem.restock, hm] <;> omega

end DineFlow

/-- C4: for every MenuItem with non-null `stock_quantity` the invariant
`0 ≤ reserved_stock ≤ stock_quantity` holds of a freshly created item
(`reserved_stock` defaults to 0) and is preserved by every Stock Ledger
operation: `reserve_stock`, `confirm_sale` under its precondition that the
quantity was previously reserved, `release_stock` and `restock`. -/
theorem C4_stock_ledger_invariant :
    (∀ (sq : Option Int) (avail : Bool) (reason : String),
        (∀ t, sq = some t → 0 ≤ t) → StockInv ⟨sq, 0, avail, reason⟩) ∧
    (∀ (it : MenuItem) (qty : Int), StockInv it → 0 ≤ qty →
        StockInv (it.reserve_stock qty).1 ∧
        (qty ≤ it.reserved_stock → StockInv (it.confirm_sale qty).1) ∧
        StockInv (it.release_stock qty) ∧
        (∀ b, StockInv (it.restock qty b))) ∧
    (∀ (it : MenuItem) (total : Int), StockInv it → it.stock_quantity = some total →
        0 ≤ it.reserved_stock ∧ it.reserved_stock ≤ total) := by
  refine ⟨fun sq avail reason hnn => ?_, fun it qty h hq =>
    ⟨stockInv_reserve it qty h hq, fun hr => stockInv_confirm it qty h hq hr,
     stockInv_release it qty h hq, fun b => stockInv_restock it qty b h hq⟩,
    fun it total h hsq => ?_⟩
  · cases sq with
    | none => exact ⟨le_refl 0, rfl⟩
    | some t => exact ⟨le_refl 0, hnn t rfl⟩
  · obtain ⟨h0, h1⟩ := h
    refine ⟨h0, ?_⟩
    unfold StockInv at *
    simp only [hsq] at h1
    exact h1

/-- Witness for C4 at concrete items: a fresh item with 5 stock satisfies the
invariant, and reserving 3 from it preserves it. -/
theorem C4_stock_ledger_invariant_witness :
    StockInv (⟨some 5, 0, true, ""⟩ : MenuItem) ∧
    StockInv ((⟨some 5, 0, true, ""⟩ : MenuItem).reserve_stock 3).1 :=
  ⟨C4_stock_ledger_invariant.1 (some 5) true ""
      (fun t ht => by cases ht; decide),
   (C4_stock_ledger_invariant.2.1 ⟨some 5, 0, true, ""⟩ 3
      (C4_stock_ledger_invariant.1 (some 5) true "" (fun t ht => by cases ht; decide))
      (by decide)).1⟩

namespace DineFlow

/-- The menu-item table, keyed by primary key. -/
def ItemDB : Type := Nat → Option MenuItem

/-- Apply a per-line stock action to the table row the line references;
a missing row (`MenuItem.DoesNotExist`) is passed over, as in the sources. -/
def applyLine {α : Type} (idOf : α → Nat) (act : α → MenuItem → MenuItem)
    (db : ItemDB) (l : α) : ItemDB :=
  fun j => if j = idOf l then (db j).map (act l) else db j

/-- Apply the stock actions of a list of lines, left to right. -/
def applyLines {α : Type} (idOf : α → Nat) (act : α → MenuItem → MenuItem)
    (db : ItemDB) (ls : List α) : ItemDB :=
  ls.foldl (applyLine idOf act) db

/-- Apply the line lists of several swept entities, left to right. -/
def applyAll {α : Type} (idOf : α → Nat) (act : α → MenuItem → MenuItem)
    (db : ItemDB) (lss : List (List α)) : ItemDB :=
  lss.foldl (applyLines idOf act) db

/-- Number of lines across `lss` referencing menu item `j`. -/
def occCount {α : Type} (idOf : α → Nat) (j : Nat) (lss : List (List α)) : Nat :=
  (lss.map (fun ls => (ls.map idOf).count j)).sum

theorem applyLines_cons {α : Type} (idOf : α → Nat) (act : α → MenuItem → MenuItem)
    (db : ItemDB) (x : α) (xs : List α) :
    applyLines idOf act db (x :: xs) = applyLines idOf act (applyLine idOf act db x) xs := rfl

theorem applyLine_at_ne {α : Type} (idOf : α → Nat) (act : α → MenuItem → MenuItem)
    (db : ItemDB) (x : α) (j : Nat) (h : j ≠ idOf x) :
    applyLine idOf act db x j = db j := by
  simp [applyLine, h]

/-- A row no line references is untouched by `applyLines`. -/
theorem applyLines_not_mem {α : Type} (idOf : α → Nat) (act : α → MenuItem → MenuItem) :
    ∀ (ls : List α) (db : ItemDB) (j : Nat), j ∉ ls.map idOf →
      applyLines idOf act db ls j = db j
  | [], _, _, _ => rfl
  | x :: xs, db, j, h => by
    simp only [List.map_cons, List.mem_cons, not_or] at h
    rw [applyLines_cons, applyLines_not_mem idOf act xs _ j h.2,
        applyLine_at_ne idOf act db x j h.1]

/-- A row referenced by exactly one line receives exactly that line's action. -/
theorem applyLines_count_one {α : Type} (idOf : α → Nat) (act : α → MenuItem → MenuItem) :
    ∀ (ls : List α) (db : ItemDB) (l : α) (j : Nat),
      (ls.map idOf).count j = 1 → l ∈ ls → idOf l = j →
      applyLines idOf act db ls j = (db j).map (act l)
  | [], _, _, _, _, hmem, _ => absurd hmem (List.not_mem_nil _)
  | x :: xs, db, l, j, hcount, hmem, hid => by
    by_cases hx : idOf x = j
    · have hzero : (xs.map idOf).count j = 0 := by
        simp [List.count_cons, hx] at hcount
        omega
      have hnot : j ∉ xs.map idOf := List.count_eq_zero.mp hzero
      have hlx : l = x := by
        rcases List.mem_cons.mp hmem with h | h
        · exact h
        · exact absurd (hid ▸ List.mem_map_of_mem idOf h) hnot
      subst hlx
      rw [applyLines_cons, applyLines_not_mem idOf act xs _ j hnot]
      simp [applyLine, hx.symm]
    · have hcount' : (xs.map idOf).count j = 1 := by
        simp only [List.map_cons, List.count_cons] at hcount
        simpa [hx, Ne.symm hx] using hcount
      have hlx : l ≠ x := fun e => hx (e ▸ hid)
      have hlmem : l ∈ xs := by
        rcases List.mem_cons.mp hmem with h | h
        · exact absurd h hlx
        · exact h
      rw [applyLines_cons,
          applyLines_count_one idOf act xs _ l j hcount' hlmem hid,
          applyLine_at_ne idOf act db x j (fun e => hx e.symm)]

/-- A row no swept entity's line references is untouched by `applyAll`. -/
theorem applyAll_occ_zero {α : Type} (idOf : α → Nat) (act : α → MenuItem → MenuItem) :
    ∀ (lss : List (List α)) (db : ItemDB) (j : Nat), occCount idOf j lss = 0 →
      applyAll idOf act db lss j = db j
  | [], _, _, _ => rfl
  | ls :: lss, db, j, h => by
    simp only [occCount, List.map_cons, List.sum_cons, Nat.add_eq_zero] at h
    rw [show applyAll idOf act db (ls :: lss) = applyAll idOf act (applyLines idOf act db ls) lss
          from rfl,
        applyAll_occ_zero idOf act lss _ j h.2,
        applyLines_not_mem idOf act ls db j (List.count_eq_zero.mp h.1)]

/-- A row referenced by exactly one line across all swept entities receives
exactly that line's action. -/
theorem applyAll_occ_one {α : Type} (idOf : α → Nat) (act : α → MenuItem → MenuItem) :
    ∀ (lss : List (List α)) (db : ItemDB) (ls₀ : List α) (l : α) (j : Nat),
      occCount idOf j lss = 1 → ls₀ ∈ lss → l ∈ ls₀ → idOf l = j →
      applyAll idOf act db lss j = (db j).map (act l)
  | [], _, _, _, _, _, hmem, _, _ => absurd hmem (List.not_mem_nil _)
  | ls :: lss, db, ls₀, l, j, hocc, hmem, hl, hid => by
    have hsplit : (ls.map idOf).count j + occCount idOf j lss = 1 := by
      simpa [occCount] using hocc
    by_cases hz : (ls.map idOf).count j = 0
    · have hocc' : occCount idOf j lss = 1 := by omega
      have hmem' : ls₀ ∈ lss := by
        rcases List.mem_cons.mp hmem with h | h
        · have hjin : j ∈ ls₀.map idOf := hid ▸ List.mem_map_of_mem idOf hl
          rw [h] at hjin
          exact absurd hjin (List.count_eq_zero.mp hz)
        · exact h
      rw [show applyAll idOf act db (ls :: lss) = applyAll idOf act (applyLines idOf act db ls) lss
            from rfl,
          applyAll_occ_one idOf act lss _ ls₀ l j hocc' hmem' hl hid,
          applyLines_not_mem idOf act ls db j (List.count_eq_zero.mp hz)]
    · have hone : (ls.map idOf).count j = 1 := by omega
      have hrest : occCount idOf j lss = 0 := by omega
      have hlin : l ∈ ls := by
        rcases List.mem_cons.mp hmem with h | h
        · exact h ▸ hl
        · exact absurd hrest (by
            have hjin : j ∈ ls₀.map idOf := hid ▸ List.mem_map_of_mem idOf hl
            have h1 : 1 ≤ (ls₀.map idOf).count j := by
              have hne : (ls₀.map idOf).count j ≠ 0 :=
                fun h0 => (List.count_eq_zero.mp h0) hjin
              omega
            have h2 : (ls₀.map idOf).count j ≤ occCount idOf j lss := by
              unfold occCount
              exact List.single_le_sum (fun _ _ => Nat.zero_le _) _
                (List.mem_map_of_mem _ h)
            omega)
      rw [show applyAll idOf act db (ls :: lss) = applyAll idOf act (applyLines idOf act db ls) lss
            from rfl,
          applyAll_occ_zero idOf act lss _ j hrest,
          applyLines_count_one idOf act ls db l j hone hlin hid]

/-- `applyAll` leaves `stock_quantity` intact whenever the per-line action does. -/
theorem applyAll_stock_quantity {α : Type} (idOf : α → Nat) (act : α → MenuItem → MenuItem)
    (hact : ∀ l it, (act l it).stock_quantity = it.stock_quantity) :
    ∀ (lss : List (List α)) (db : ItemDB) (j : Nat),
      (applyAll idOf act db lss j).map MenuItem.stock_quantity
        = (db j).map MenuItem.stock_quantity := by
  have hline : ∀ (ls : List α) (db : ItemDB) (j : Nat),
      (applyLines idOf act db ls j).map MenuItem.stock_quantity
        = (db j).map MenuItem.stock_quantity := by
    intro ls
    induction ls with
    | nil => intro db j; rfl
    | cons x xs ih =>
      intro db j
      rw [applyLines_cons, ih]
      by_cases hj : j = idOf x
      · subst hj
        simp [applyLine, Option.map_map, Function.comp]
        cases db (idOf x) with
        | none => rfl
        | some it => simp [hact]
      · rw [applyLine_at_ne idOf act db x j hj]
  intro lss
  induction lss with
  | nil => intro db j; rfl
  | cons ls lss ih =>
    intro db j
    rw [show applyAll idOf act db (ls :: lss) = applyAll idOf act (applyLines idOf act db ls) lss
          from rfl,
        ih, hline]

end DineFlow

namespace DineFlow

/-- Reservation lifecycle states, as used by the Orderflow sources
(`OrderReservation.Status` referenced in orders/cleanup.py, public_views.py
and test_stock_flow.py). -/
inductive ResStatus
  | ACTIVE
  | PAID
  | EXPIRED
  | CANCELLED
  deriving Repr, DecidableEq, BEq

/-- One snapshotted line of a reservation, as stored in
`OrderReservation.items` (the dicts built with keys `menu_item_id`,
`quantity`, `name`, `price`, `subtotal`; see test_stock_flow.py and the
reads in public_views.py / cleanup.py). -/
structure ResLine where
  menu_item_id : Nat
  quantity : Int
  name : String
  price : ℚ
  line_subtotal : ℚ
  deriving Repr, DecidableEq

/-- Modelled from the spec: the `OrderReservation` Django model itself
(Orderflow `apps/orders/models.py`) is not in the source tree — only its
callers are.  Fields follow spec §3 "Reservation" and the accesses made in
public_views.py, cleanup.py and test_stock_flow.py. -/
structure OrderReservation where
  id : Nat
  restaurant_id : Nat
  items : List ResLine
  total_amount : ℚ
  status : ResStatus
  expires_at : Int
  customer_name : String
  table_number : String
  payment_method : String
  deriving Repr, DecidableEq

/-- The filter of `cleanup_expired_reservations` (orders/cleanup.py lines
96-99): `status = ACTIVE AND expires_at < now`. -/
def resExpired (now : Int) (r : OrderReservation) : Bool :=
  decide (r.status = ResStatus.ACTIVE) && decide (r.expires_at < now)

theorem resExpired_iff (now : Int) (r : OrderReservation) :
    resExpired now r = true ↔ (r.status = ResStatus.ACTIVE ∧ r.expires_at < now) := by
  simp [resExpired]

/-- The per-line stock effect of expiring a reservation:
`MenuItem.release_stock(quantity)`. -/
def releaseAct (l : ResLine) (it : MenuItem) : MenuItem :=
  it.release_stock l.quantity

/-- The loop body of `cleanup_expired_reservations` (orders/cleanup.py lines
100-113): every reservation matching the filter has each of its lines
released against the menu-item table and its status set to EXPIRED; all
other reservations are untouched. -/
def sweepExpired (now : Int) : ItemDB → List OrderReservation → ItemDB × List OrderReservation
  | db, [] => (db, [])
  | db, r :: rs =>
    if resExpired now r then
      let db1 := applyLines ResLine.menu_item_id releaseAct db r.items
      let p := sweepExpired now db1 rs
      (p.1, { r with status := ResStatus.EXPIRED } :: p.2)
    else
      let p := sweepExpired now db rs
      (p.1, r :: p.2)

/-- The durable state the reservation sweep touches. -/
structure ResState where
  items : ItemDB
  reservations : List OrderReservation

/-- `cleanup_expired_reservations` (orders/cleanup.py lines 89-121):
count the ACTIVE reservations whose `expires_at` has passed, and when the
count is nonzero release every such reservation's lines and flip it to
EXPIRED, returning the count. -/
def cleanup_expired_reservations (now : Int) (st : ResState) : ResState × Nat :=
  let count := (st.reservations.filter (resExpired now)).length
  if count = 0 then (st, 0)
  else
    let p := sweepExpired now st.items st.reservations
    (⟨p.1, p.2⟩, count)

theorem sweepExpired_reservations (now : Int) :
    ∀ (rs : List OrderReservation) (db : ItemDB),
      (sweepExpired now db rs).2 = rs.map (fun r =>
        if resExpired now r then { r with status := ResStatus.EXPIRED } else r)
  | [], _ => rfl
  | r :: rs, db => by
    by_cases h : resExpired now r <;>
      simp [sweepExpired, h, sweepExpired_reservations now rs]

theorem sweepExpired_items (now : Int) :
    ∀ (rs : List OrderReservation) (db : ItemDB),
      (sweepExpired now db rs).1 = applyAll ResLine.menu_item_id releaseAct db
        ((rs.filter (resExpired now)).map OrderReservation.items)
  | [], _ => rfl
  | r :: rs, db => by
    by_cases h : resExpired now r <;>
      simp [sweepExpired, h, List.filter_cons, sweepExpired_items now rs, applyAll]

/-- After a sweep no reservation still matches the sweep filter. -/
theorem sweepExpired_none_left (now : Int) (rs : List OrderReservation) (db : ItemDB) :
    ((sweepExpired now db rs).2.filter (resExpired now)).length = 0 := by
  rw [sweepExpired_reservations, List.length_eq_zero, List.filter_eq_nil_iff]
  intro r' hr'
  rcases List.mem_map.mp hr' with ⟨r, _, rfl⟩
  by_cases h : resExpired now r
  · have hp := (resExpired_iff now r).mp h
    simp [resExpired, hp.1, hp.2]
  · simp [h]

end DineFlow

namespace DineFlow

theorem resExpired_ite {β : Type} (now : Int) (r : OrderReservation) (x y : β) :
    (if resExpired now r then x else y)
      = (if r.status = ResStatus.ACTIVE ∧ r.expires_at < now then x else y) := by
  by_cases h : r.status = ResStatus.ACTIVE ∧ r.expires_at < now
  · rw [if_pos h, if_pos ((resExpired_iff now r).mpr h)]
  · rw [if_neg h, if_neg (fun hb => h ((resExpired_iff now r).mp hb))]

theorem releaseAct_stock_quantity (l : ResLine) (it : MenuItem) :
    (releaseAct l it).stock_quantity = it.stock_quantity := by
  cases h : it.stock_quantity <;> simp [releaseAct, MenuItem.release_stock, h]

end DineFlow

/-- C8: run at any time, the expired-reservation sweep flips to EXPIRED
exactly the reservations that are ACTIVE with `expires_at < now`; for each
swept line whose item row exists with limited stock, is referenced by no
other swept line, and whose reserved quantity is actually held, the item's
`reserved_stock` drops by the line's quantity; `stock_quantity` is never
changed; rows referenced by no swept line are untouched; reservations
already EXPIRED, PAID or CANCELLED are untouched; and running the sweep
again on the result is a no-op. -/
theorem C8_expired_reservation_sweep (now : Int) (st : ResState) :
    ((cleanup_expired_reservations now st).1.reservations = st.reservations.map (fun r =>
        if r.status = ResStatus.ACTIVE ∧ r.expires_at < now then
          { r with status := ResStatus.EXPIRED } else r)) ∧
    (∀ j, ((cleanup_expired_reservations now st).1.items j).map MenuItem.stock_quantity
        = (st.items j).map MenuItem.stock_quantity) ∧
    (∀ r ∈ st.reservations, r.status = ResStatus.ACTIVE → r.expires_at < now →
      ∀ l ∈ r.items,
        occCount ResLine.menu_item_id l.menu_item_id
            ((st.reservations.filter (resExpired now)).map OrderReservation.items) = 1 →
        ∀ it t, st.items l.menu_item_id = some it → it.stock_quantity = some t →
          l.quantity ≤ it.reserved_stock →
          (cleanup_expired_reservations now st).1.items l.menu_item_id
            = some { it with reserved_stock := it.reserved_stock - l.quantity }) ∧
    (∀ j, occCount ResLine.menu_item_id j
        ((st.reservations.filter (resExpired now)).map OrderReservation.items) = 0 →
      (cleanup_expired_reservations now st).1.items j = st.items j) ∧
    (cleanup_expired_reservations now (cleanup_expired_reservations now st).1
      = ((cleanup_expired_reservations now st).1, 0)) := by
  have hmap : ∀ rs : List OrderReservation, (rs.map (fun r =>
      if resExpired now r then { r with status := ResStatus.EXPIRED } else r))
        = rs.map (fun r => if r.status = ResStatus.ACTIVE ∧ r.expires_at < now then
          { r with status := ResStatus.EXPIRED } else r) := by
    intro rs
    exact List.map_congr_left (fun r _ => resExpired_ite now r _ _)
  by_cases hz : (st.reservations.filter (resExpired now)).length = 0
  · have hres : (cleanup_expired_reservations now st).1 = st := by
      simp [cleanup_expired_reservations, hz]
    have hid : st.reservations.map (fun r =>
        if r.status = ResStatus.ACTIVE ∧ r.expires_at < now then
          { r with status := ResStatus.EXPIRED } else r) = st.reservations := by
      rw [← hmap]
      have hnone : ∀ r ∈ st.reservations, ¬ resExpired now r = true := by
        intro r hr hb
        have : r ∈ st.reservations.filter (resExpired now) := List.mem_filter.mpr ⟨hr, hb⟩
        rw [List.length_eq_zero.mp hz] at this
        exact List.not_mem_nil r this
      calc st.reservations.map _
          = st.reservations.map id := List.map_congr_left (fun r hr => by
            simp [hnone r hr])
        _ = st.reservations := List.map_id _
    refine ⟨by rw [hres, hid], fun j => by rw [hres], ?_, fun j _ => by rw [hres], ?_⟩
    · intro r hr hact hexp l _ _ _ _ _ _ _
      exfalso
      have hb : resExpired now r = true := (resExpired_iff now r).mpr ⟨hact, hexp⟩
      have : r ∈ st.reservations.filter (resExpired now) := List.mem_filter.mpr ⟨hr, hb⟩
      rw [List.length_eq_zero.mp hz] at this
      exact List.not_mem_nil r this
    · rw [hres]
      simp [cleanup_expired_reservations, hz]
  · have hcleanup : (cleanup_expired_reservations now st).1
        = ⟨(sweepExpired now st.items st.reservations).1,
           (sweepExpired now st.items st.reservations).2⟩ := by
      simp [cleanup_expired_reservations, hz]
    refine ⟨?_, ?_, ?_, ?_, ?_⟩
    · rw [hcleanup]
      show (sweepExpired now st.items st.reservations).2 = _
      rw [sweepExpired_reservations, hmap]
    · intro j
      rw [hcleanup]
      show ((sweepExpired now st.items st.reservations).1 j).map _ = _
      rw [sweepExpired_items, applyAll_stock_quantity _ _ releaseAct_stock_quantity]
    · intro r hr hact hexp l hl hocc it t hit hstock hq
      rw [hcleanup]
      show (sweepExpired now st.items st.reservations).1 l.menu_item_id = _
      have hb : resExpired now r = true := (resExpired_iff now r).mpr ⟨hact, hexp⟩
      have hrf : r ∈ st.reservations.filter (resExpired now) := List.mem_filter.mpr ⟨hr, hb⟩
      have hitems : r.items ∈ (st.reservations.filter (resExpired now)).map
          OrderReservation.items := List.mem_map_of_mem _ hrf
      rw [sweepExpired_items,
          applyAll_occ_one ResLine.menu_item_id releaseAct _ st.items r.items l
            l.menu_item_id hocc hitems hl rfl, hit]
      simp [releaseAct, MenuItem.release_stock, hstock, hq]
    · intro j hocc
      rw [hcleanup]
      show (sweepExpired now st.items st.reservations).1 j = _
      rw [sweepExpired_items, applyAll_occ_zero ResLine.menu_item_id releaseAct _ st.items j hocc]
    · rw [hcleanup]
      have hleft := sweepExpired_none_left now st.reservations st.items
      simp [cleanup_expired_reservations, hleft]

/-- Witness for C8, the spec §8 scenario: one ACTIVE reservation holding
5 units of item 1 (10 total / 5 reserved), expired at time 99, swept at
time 100: the reservation becomes EXPIRED, `reserved_stock` drops to 0,
`stock_quantity` stays 10, and a second sweep is a no-op. -/
theorem C8_expired_reservation_sweep_witness :
    ((cleanup_expired_reservations 100
        ⟨fun j => if j = 1 then some ⟨some 10, 5, true, ""⟩ else none,
         [⟨7, 1, [⟨1, 5, "Stock Test Item", 10, 50⟩], 50, ResStatus.ACTIVE, 99,
           "Expired User", "", "upi"⟩]⟩).1.reservations =
      [⟨7, 1, [⟨1, 5, "Stock Test Item", 10, 50⟩], 50, ResStatus.EXPIRED, 99,
        "Expired User", "", "upi"⟩]) ∧
    ((cleanup_expired_reservations 100
        ⟨fun j => if j = 1 then some ⟨some 10, 5, true, ""⟩ else none,
         [⟨7, 1, [⟨1, 5, "Stock Test Item", 10, 50⟩], 50, ResStatus.ACTIVE, 99,
           "Expired User", "", "upi"⟩]⟩).1.items 1 = some ⟨some 10, 0, true, ""⟩) ∧
    (cleanup_expired_reservations 100
        (cleanup_expired_reservations 100
          ⟨fun j => if j = 1 then some ⟨some 10, 5, true, ""⟩ else none,
           [⟨7, 1, [⟨1, 5, "Stock Test Item", 10, 50⟩], 50, ResStatus.ACTIVE, 99,
             "Expired User", "", "upi"⟩]⟩).1
      = ((cleanup_expired_reservations 100
          ⟨fun j => if j = 1 then some ⟨some 10, 5, true, ""⟩ else none,
           [⟨7, 1, [⟨1, 5, "Stock Test Item", 10, 50⟩], 50, ResStatus.ACTIVE, 99,
             "Expired User", "", "upi"⟩]⟩).1, 0)) := by
  have h := C8_expired_reservation_sweep 100
    ⟨fun j => if j = 1 then some ⟨some 10, 5, true, ""⟩ else none,
     [⟨7, 1, [⟨1, 5, "Stock Test Item", 10, 50⟩], 50, ResStatus.ACTIVE, 99,
       "Expired User", "", "upi"⟩]⟩
  refine ⟨?_, ?_, h.2.2.2.2⟩
  · rw [h.1]
    decide
  · have h3 := h.2.2.1 _ (List.mem_singleton.mpr rfl) rfl (by decide)
      ⟨1, 5, "Stock Test Item", 10, 50⟩ (List.mem_singleton.mpr rfl) (by decide)
      ⟨some 10, 5, true, ""⟩ 10 rfl rfl (by decide)
    rw [h3]
    decide

namespace DineFlow

/-- The columns of `Order` (Backend apps/orders/models.py) that its status
machine reads or writes.  Raised `ValueError`s are embedded as `.error`
(an error raised before any `save` leaves the row unchanged). -/
structure OrderRec where
  status : String
  payment_method : String
  payment_status : String
  completed_at : Option Int
  completed_by : Option Nat
  cash_collected_by : Option Nat
  cash_collected_at : Option Int
  cash_collected_ip : Option String
  total_amount : ℚ
  deriving Repr, DecidableEq

/-- One `CashAuditLog` row as created by `collect_payment` (models.py lines
234-242); fields irrelevant to the claims are elided. -/
structure CashAuditEntry where
  staff : Option Nat
  action : String
  amount : ℚ
  ip_address : Option String
  deriving Repr, DecidableEq

namespace OrderRec

/-- `Order.ALLOWED_TRANSITIONS` (models.py lines 165-169) with the
`.get(status, [])` default of `can_transition_to`. -/
def ALLOWED_TRANSITIONS (status : String) : List String :=
  if status = "pending" then ["preparing"]
  else if status = "preparing" then ["completed"]
  else []

/-- `Order.can_transition_to` (models.py lines 171-173). -/
def can_transition_to (o : OrderRec) (new_status : String) : Prop :=
  new_status ∈ ALLOWED_TRANSITIONS o.status

instance (o : OrderRec) (s : String) : Decidable (o.can_transition_to s) :=
  List.instDecidableMemOfLawfulBEq s (ALLOWED_TRANSITIONS o.status)

/-- `Order.mark_as_preparing` (models.py lines 191-197); the interpolated
detail of the transition error message is elided. -/
def mark_as_preparing (o : OrderRec) : Except String OrderRec :=
  if o.payment_status = "success" then
    if o.can_transition_to "preparing" then
      .ok { o with status := "preparing" }
    else .error "Cannot transition"
  else .error "Order cannot be prepared until payment is successful."

/-- `Order.mark_as_completed` (models.py lines 199-209). -/
def mark_as_completed (o : OrderRec) (user : Option Nat) (now : Int) :
    Except String OrderRec :=
  if o.payment_status = "success" then
    if o.can_transition_to "completed" then
      .ok { o with status := "completed", completed_at := some now, completed_by := user }
    else .error "Cannot transition"
  else .error "Order cannot be completed until payment is successful."

/-- `Order.collect_payment` (models.py lines 211-242): guards, then the
atomic flip `payment_status := success, status := preparing` plus one
`CashAuditLog` row. -/
def collect_payment (o : OrderRec) (user : Option Nat) (now : Int)
    (ip : Option String) : Except String (OrderRec × CashAuditEntry) :=
  if o.payment_method ≠ "cash" then
    .error "Cannot collect payment for non-cash order."
  else if o.payment_status = "success" then
    .error "Payment has already been collected."
  else if o.status ≠ "pending" then
    .error "Cannot collect cash for this order status"
  else
    .ok ({ o with payment_status := "success"
                  status := "preparing"
                  cash_collected_by := user
                  cash_collected_at := some now
                  cash_collected_ip := ip },
         ⟨user, "CASH_COLLECTED", o.total_amount, ip⟩)

/-- `Order.delete` (models.py lines 183-189): manual deletion always raises. -/
def delete (_o : OrderRec) : Except String Unit :=
  .error "Orders cannot be manually deleted."

theorem can_transition_to_preparing_iff (o : OrderRec) :
    o.can_transition_to "preparing" ↔ o.status = "pending" := by
  unfold can_transition_to ALLOWED_TRANSITIONS
  by_cases h1 : o.status = "pending"
  · simp [h1]
  · by_cases h2 : o.status = "preparing" <;> simp [h1, h2]

theorem can_transition_to_completed_iff (o : OrderRec) :
    o.can_transition_to "completed" ↔ o.status = "preparing" := by
  unfold can_transition_to ALLOWED_TRANSITIONS
  by_cases h1 : o.status = "pending"
  · simp [h1]
  · by_cases h2 : o.status = "preparing" <;> simp [h1, h2]

end OrderRec

end DineFlow

/-- C6: the Order status machine admits only pending→preparing→completed:
`mark_as_preparing` succeeds only from `pending` with `payment_status =
success`, `mark_as_completed` only from `preparing` with payment success,
cash collection only flips a pending cash order to preparing while setting
payment success atomically, and once an order is `completed` every
state-machine operation (`mark_as_preparing`, `mark_as_completed`,
`collect_payment`, `delete`) returns a business rejection, leaving the
row unchanged (no `.ok` state is produced). -/
theorem C6_order_status_machine :
    (∀ (o : DineFlow.OrderRec) (u : Option Nat) (now : Int) (ip : Option String),
        o.status = "completed" →
        o.mark_as_preparing.isOk = false ∧
        (o.mark_as_completed u now).isOk = false ∧
        (o.collect_payment u now ip).isOk = false ∧
        o.delete.isOk = false) ∧
    (∀ (o o' : DineFlow.OrderRec), o.mark_as_preparing = .ok o' →
        o.payment_status = "success" ∧ o.status = "pending" ∧
        o' = { o with status := "preparing" }) ∧
    (∀ (o : DineFlow.OrderRec) (u : Option Nat) (now : Int) (o' : DineFlow.OrderRec),
        o.mark_as_completed u now = .ok o' →
        o.payment_status = "success" ∧ o.status = "preparing" ∧
        o' = { o with status := "completed", completed_at := some now, completed_by := u }) ∧
    (∀ (o : DineFlow.OrderRec) (u : Option Nat) (now : Int) (ip : Option String) p,
        o.collect_payment u now ip = .ok p →
        o.payment_method = "cash" ∧ o.payment_status ≠ "success" ∧ o.status = "pending" ∧
        p.1.status = "preparing" ∧ p.1.payment_status = "success") ∧
    (∀ o : DineFlow.OrderRec, o.delete.isOk = false) := by
  refine ⟨fun o u now ip hc => ?_, fun o o' h => ?_, fun o u now o' h => ?_,
    fun o u now ip p h => ?_, fun o => rfl⟩
  · have hp : ¬ o.can_transition_to "preparing" := by
      rw [DineFlow.OrderRec.can_transition_to_preparing_iff, hc]
      decide
    have hcmp : ¬ o.can_transition_to "completed" := by
      rw [DineFlow.OrderRec.can_transition_to_completed_iff, hc]
      decide
    have hst : o.status ≠ "pending" := by rw [hc]; decide
    refine ⟨?_, ?_, ?_, rfl⟩
    · by_cases h1 : o.payment_status = "success" <;>
        simp [DineFlow.OrderRec.mark_as_preparing, h1, hp, Except.isOk, Except.toBool]
    · by_cases h1 : o.payment_status = "success" <;>
        simp [DineFlow.OrderRec.mark_as_completed, h1, hcmp, Except.isOk, Except.toBool]
    · by_cases h1 : o.payment_method = "cash" <;>
        by_cases h2 : o.payment_status = "success" <;>
          simp [DineFlow.OrderRec.collect_payment, h1, h2, hst, Except.isOk, Except.toBool]
  · unfold DineFlow.OrderRec.mark_as_preparing at h
    by_cases h1 : o.payment_status = "success"
    · rw [if_pos h1] at h
      by_cases h2 : o.can_transition_to "preparing"
      · rw [if_pos h2] at h
        exact ⟨h1, (DineFlow.OrderRec.can_transition_to_preparing_iff o).mp h2,
          (Except.ok.injEq _ _).mp h.symm⟩
      · rw [if_neg h2] at h
        exact absurd h (by simp)
    · rw [if_neg h1] at h
      exact absurd h (by simp)
  · unfold DineFlow.OrderRec.mark_as_completed at h
    by_cases h1 : o.payment_status = "success"
    · rw [if_pos h1] at h
      by_cases h2 : o.can_transition_to "completed"
      · rw [if_pos h2] at h
        exact ⟨h1, (DineFlow.OrderRec.can_transition_to_completed_iff o).mp h2,
          (Except.ok.injEq _ _).mp h.symm⟩
      · rw [if_neg h2] at h
        exact absurd h (by simp)
    · rw [if_neg h1] at h
      exact absurd h (by simp)
  · unfold DineFlow.OrderRec.collect_payment at h
    by_cases h1 : o.payment_method ≠ "cash"
    · rw [if_pos h1] at h
      exact absurd h (by simp)
    · rw [if_neg h1] at h
      by_cases h2 : o.payment_status = "success"
      · rw [if_pos h2] at h
        exact absurd h (by simp)
      · rw [if_neg h2] at h
        by_cases h3 : o.status ≠ "pending"
        · rw [if_pos h3] at h
          exact absurd h (by simp)
        · rw [if_neg h3] at h
          have hp := (Except.ok.injEq _ _).mp h.symm
          refine ⟨not_not.mp h1, h2, not_not.mp h3, ?_, ?_⟩ <;> rw [hp]

/-- Witness for C6 at concrete orders: every operation on a completed paid
cash order is rejected, while `mark_as_preparing` on a paid pending order
succeeds into `preparing`. -/
theorem C6_order_status_machine_witness :
    ((⟨"completed", "cash", "success", some 0, none, none, none, none, 10⟩ :
        DineFlow.OrderRec).mark_as_preparing.isOk = false) ∧
    ((⟨"completed", "cash", "success", some 0, none, none, none, none, 10⟩ :
        DineFlow.OrderRec).collect_payment none 0 none).isOk = false ∧
    ((⟨"pending", "cash", "success", none, none, none, none, none, 10⟩ :
        DineFlow.OrderRec).mark_as_preparing =
      .ok ⟨"preparing", "cash", "success", none, none, none, none, none, 10⟩) := by
  have h := C6_order_status_machine
  refine ⟨(h.1 _ none 0 none rfl).1, (h.1 _ none 0 none rfl).2.2.1, ?_⟩
  rfl

namespace DineFlow

/-- One `OrderItem` row as read by the `pre_delete` stock-restoration signal
(Orderflow apps/orders/signals.py). -/
structure OrderLine where
  menu_item_id : Nat
  quantity : Int
  deriving Repr, DecidableEq

/-- The columns of `Order` used by the stale pending-cash-order sweep
(Orderflow apps/orders/cleanup.py lines 46-86), with the order's item rows
attached (they are cascade-deleted with it).  `created_at` is UTC minutes. -/
structure COrder where
  id : Nat
  restaurant_id : Nat
  payment_method : String
  payment_status : String
  status : String
  created_at : Int
  items : List OrderLine
  deriving Repr, DecidableEq

/-- A `Restaurant` row as used by the sweep: its IANA timezone is embedded
as a fixed UTC offset in minutes (the sweep only uses the zone to locate
the local midnight). -/
structure RestaurantRow where
  id : Nat
  tz_offset : Int
  deriving Repr, DecidableEq

/-- The shared durable state the stale-order sweep touches.
`last_sequence` is the `DailyOrderSequence` counter, carried to show
deletion never touches it. -/
structure CleanupState where
  restaurants : List RestaurantRow
  orders : List COrder
  items : ItemDB
  last_sequence : Nat

/-- `start_of_today_local` converted back to UTC (cleanup.py lines 59-62):
`localtime(now, tz)`, floor to midnight, `astimezone(utc)`. -/
def start_of_today_utc (tz_offset now : Int) : Int :=
  let local_now := now + tz_offset
  local_now - local_now % 1440 - tz_offset

/-- The queryset filter of the sweep (cleanup.py lines 64-70):
`restaurant = r AND payment_method = cash AND payment_status = pending AND
status = pending AND created_at < cutoff_utc`. -/
def staleFor (now : Int) (r : RestaurantRow) (o : COrder) : Bool :=
  decide (o.restaurant_id = r.id) && decide (o.payment_method = "cash")
    && decide (o.payment_status = "pending") && decide (o.status = "pending")
    && decide (o.created_at < start_of_today_utc r.tz_offset now)

/-- A line of a deleted order as seen by the `pre_delete` signal: the item
it references, its quantity, and whether the parent order was paid. -/
structure DelLine where
  menu_item_id : Nat
  quantity : Int
  paid : Bool
  deriving Repr, DecidableEq

/-- `restore_stock_on_delete` (Orderflow apps/orders/signals.py lines 5-30):
a paid order's item is restocked, an unpaid one's reservation released. -/
def delAct (l : DelLine) (it : MenuItem) : MenuItem :=
  if l.paid then it.restock l.quantity true else it.release_stock l.quantity

/-- The signal inputs produced by cascade-deleting one order. -/
def delLines (o : COrder) : List DelLine :=
  o.items.map (fun l => ⟨l.menu_item_id, l.quantity, decide (o.payment_status = "success")⟩)

/-- The per-restaurant loop of `cleanup_stale_pending_cash_orders`
(cleanup.py lines 57-80): for each restaurant the matching orders are
deleted — cascading the signal over their items — and the count of deleted
rows (orders plus their cascaded item rows) accumulates. -/
def sweepRestaurants (now : Int) : List RestaurantRow → List COrder → ItemDB → Nat →
    List COrder × ItemDB × Nat
  | [], orders, db, acc => (orders, db, acc)
  | r :: rs, orders, db, acc =>
    let doomed := orders.filter (staleFor now r)
    let remaining := orders.filter (fun o => !(staleFor now r o))
    let db' := applyAll DelLine.menu_item_id delAct db (doomed.map delLines)
    sweepRestaurants now rs remaining db'
      (acc + doomed.length + (doomed.map (fun o => o.items.length)).sum)

/-- `cleanup_stale_pending_cash_orders` (cleanup.py lines 46-86). -/
def cleanup_stale_pending_cash_orders (now : Int) (st : CleanupState) :
    CleanupState × Nat :=
  let p := sweepRestaurants now st.restaurants st.orders st.items 0
  (⟨st.restaurants, p.1, p.2.1, st.last_sequence⟩, p.2.2)

/-- The delete-signal line groups the sweep applies, in application order. -/
def deletedGroups (now : Int) : List RestaurantRow → List COrder → List (List DelLine)
  | [], _ => []
  | r :: rs, orders =>
    (orders.filter (staleFor now r)).map delLines
      ++ deletedGroups now rs (orders.filter (fun o => !(staleFor now r o)))

/-- Is some restaurant's sweep pass going to delete this order? -/
def anyStale (now : Int) (rs : List RestaurantRow) (o : COrder) : Bool :=
  rs.any (fun r => staleFor now r o)

end DineFlow

namespace DineFlow

theorem sweepRestaurants_orders (now : Int) :
    ∀ (rs : List RestaurantRow) (orders : List COrder) (db : ItemDB) (acc : Nat),
      (sweepRestaurants now rs orders db acc).1
        = orders.filter (fun o => !(anyStale now rs o))
  | [], orders, db, acc => by
    simp [sweepRestaurants, anyStale]
  | r :: rs, orders, db, acc => by
    rw [show (sweepRestaurants now (r :: rs) orders db acc).1
          = (sweepRestaurants now rs (orders.filter (fun o => !(staleFor now r o)))
              (applyAll DelLine.menu_item_id delAct db
                ((orders.filter (staleFor now r)).map delLines))
              (acc + (orders.filter (staleFor now r)).length
                + ((orders.filter (staleFor now r)).map (fun o => o.items.length)).sum)).1
          from rfl,
        sweepRestaurants_orders now rs, List.filter_filter]
    refine List.filter_congr (fun o _ => ?_)
    simp [anyStale, Bool.not_or, Bool.and_comm]

theorem sweepRestaurants_items (now : Int) :
    ∀ (rs : List RestaurantRow) (orders : List COrder) (db : ItemDB) (acc : Nat),
      (sweepRestaurants now rs orders db acc).2.1
        = applyAll DelLine.menu_item_id delAct db (deletedGroups now rs orders)
  | [], orders, db, acc => rfl
  | r :: rs, orders, db, acc => by
    rw [show (sweepRestaurants now (r :: rs) orders db acc).2.1
          = (sweepRestaurants now rs (orders.filter (fun o => !(staleFor now r o)))
              (applyAll DelLine.menu_item_id delAct db
                ((orders.filter (staleFor now r)).map delLines))
              (acc + (orders.filter (staleFor now r)).length
                + ((orders.filter (staleFor now r)).map (fun o => o.items.length)).sum)).2.1
          from rfl,
        sweepRestaurants_items now rs]
    show List.foldl _ _ _ = List.foldl _ _ _
    rw [show deletedGroups now (r :: rs) orders
          = (orders.filter (staleFor now r)).map delLines
            ++ deletedGroups now rs (orders.filter (fun o => !(staleFor now r o))) from rfl,
        List.foldl_append]
    rfl

/-- Every line group the sweep deletes comes from an unpaid order. -/
theorem deletedGroups_paid_false (now : Int) :
    ∀ (rs : List RestaurantRow) (orders : List COrder),
      ∀ ls ∈ deletedGroups now rs orders, ∀ l ∈ ls, l.paid = false
  | [], _, ls, hls, l, hl => absurd hls (List.not_mem_nil ls)
  | r :: rs, orders, ls, hls, l, hl => by
    rw [show deletedGroups now (r :: rs) orders
          = (orders.filter (staleFor now r)).map delLines
            ++ deletedGroups now rs (orders.filter (fun o => !(staleFor now r o))) from rfl]
        at hls
    rcases List.mem_append.mp hls with h | h
    · rcases List.mem_map.mp h with ⟨o, ho, rfl⟩
      have hpend : o.payment_status = "pending" := by
        have hsf := (List.mem_filter.mp ho).2
        simp [staleFor] at hsf
        tauto
      rcases List.mem_map.mp hl with ⟨ol, _, rfl⟩
      simp [hpend]
    · exact deletedGroups_paid_false now rs _ ls h l hl

/-- Any order some restaurant pass matches contributes its delete-signal
line group to `deletedGroups`. -/
theorem deletedGroups_mem (now : Int) :
    ∀ (rs : List RestaurantRow) (orders : List COrder) (o : COrder),
      o ∈ orders → anyStale now rs o = true →
      delLines o ∈ deletedGroups now rs orders
  | [], _, o, _, hstale => by simp [anyStale] at hstale
  | r :: rs, orders, o, ho, hstale => by
    rw [show deletedGroups now (r :: rs) orders
          = (orders.filter (staleFor now r)).map delLines
            ++ deletedGroups now rs (orders.filter (fun o => !(staleFor now r o))) from rfl]
    by_cases hr : staleFor now r o = true
    · exact List.mem_append_left _
        (List.mem_map_of_mem _ (List.mem_filter.mpr ⟨ho, hr⟩))
    · have hrf : staleFor now r o = false := Bool.eq_false_iff.mpr hr
      have h2 : anyStale now rs o = true := by
        simp [anyStale] at hstale ⊢
        rcases hstale with h | h
        · exact absurd h hr
        · exact h
      exact List.mem_append_right _
        (deletedGroups_mem now rs _ o
          (List.mem_filter.mpr ⟨ho, by simp [hrf]⟩) h2)

theorem applyLines_stock_quantity_of {α : Type} (idOf : α → Nat)
    (act : α → MenuItem → MenuItem) :
    ∀ (ls : List α) (db : ItemDB) (j : Nat),
      (∀ l ∈ ls, ∀ it, (act l it).stock_quantity = it.stock_quantity) →
      (applyLines idOf act db ls j).map MenuItem.stock_quantity
        = (db j).map MenuItem.stock_quantity
  | [], _, _, _ => rfl
  | x :: xs, db, j, h => by
    rw [applyLines_cons,
        applyLines_stock_quantity_of idOf act xs _ j (fun l hl => h l (List.mem_cons_of_mem x hl))]
    by_cases hj : j = idOf x
    · subst hj
      simp only [applyLine, if_pos rfl, Option.map_map]
      cases db (idOf x) with
      | none => rfl
      | some it => simp [h x (List.mem_cons_self x xs) it]
    · rw [applyLine_at_ne idOf act db x j hj]

theorem applyAll_stock_quantity_of {α : Type} (idOf : α → Nat)
    (act : α → MenuItem → MenuItem) :
    ∀ (lss : List (List α)) (db : ItemDB) (j : Nat),
      (∀ ls ∈ lss, ∀ l ∈ ls, ∀ it, (act l it).stock_quantity = it.stock_quantity) →
      (applyAll idOf act db lss j).map MenuItem.stock_quantity
        = (db j).map MenuItem.stock_quantity
  | [], _, _, _ => rfl
  | ls :: lss, db, j, h => by
    rw [show applyAll idOf act db (ls :: lss)
          = applyAll idOf act (applyLines idOf act db ls) lss from rfl,
        applyAll_stock_quantity_of idOf act lss _ j
          (fun ls' hls' => h ls' (List.mem_cons_of_mem ls hls')),
        applyLines_stock_quantity_of idOf act ls db j (h ls (List.mem_cons_self ls lss))]

theorem delAct_stock_quantity_of_unpaid (l : DelLine) (hl : l.paid = false) (it : MenuItem) :
    (delAct l it).stock_quantity = it.stock_quantity := by
  cases h : it.stock_quantity <;> simp [delAct, hl, MenuItem.release_stock, h]

end DineFlow

/-- C9: the stale pending-cash-order sweep deletes exactly the orders with
`payment_method = cash`, `payment_status = pending`, `status = pending` and
`created_at` before the tenant-local start of today converted to UTC; every
deleted order's item rows feed the release signal, which (for an item row
that exists with limited stock, is referenced by exactly one deleted line,
and whose quantity is actually held) lowers `reserved_stock` by the line's
quantity while `stock_quantity` is never changed; rows no deleted line
references keep their state, and no other order is deleted. -/
theorem C9_stale_cash_order_sweep (now : Int) (st : CleanupState) :
    ((cleanup_stale_pending_cash_orders now st).1.orders
      = st.orders.filter (fun o => !(anyStale now st.restaurants o))) ∧
    (∀ o : COrder, anyStale now st.restaurants o = true ↔ ∃ r ∈ st.restaurants,
        o.restaurant_id = r.id ∧ o.payment_method = "cash" ∧ o.payment_status = "pending" ∧
        o.status = "pending" ∧ o.created_at < start_of_today_utc r.tz_offset now) ∧
    (∀ o ∈ st.orders, anyStale now st.restaurants o = true →
        delLines o ∈ deletedGroups now st.restaurants st.orders) ∧
    (∀ j, ((cleanup_stale_pending_cash_orders now st).1.items j).map MenuItem.stock_quantity
        = (st.items j).map MenuItem.stock_quantity) ∧
    (∀ ls ∈ deletedGroups now st.restaurants st.orders, ∀ l ∈ ls,
        occCount DelLine.menu_item_id l.menu_item_id
            (deletedGroups now st.restaurants st.orders) = 1 →
        ∀ it t, st.items l.menu_item_id = some it → it.stock_quantity = some t →
          l.quantity ≤ it.reserved_stock →
          (cleanup_stale_pending_cash_orders now st).1.items l.menu_item_id
            = some { it with reserved_stock := it.reserved_stock - l.quantity }) ∧
    (∀ j, occCount DelLine.menu_item_id j (deletedGroups now st.restaurants st.orders) = 0 →
        (cleanup_stale_pending_cash_orders now st).1.items j = st.items j) := by
  have hitems : (cleanup_stale_pending_cash_orders now st).1.items
      = applyAll DelLine.menu_item_id delAct st.items
          (deletedGroups now st.restaurants st.orders) := by
    show (sweepRestaurants now st.restaurants st.orders st.items 0).2.1 = _
    exact sweepRestaurants_items now st.restaurants st.orders st.items 0
  refine ⟨?_, ?_, ?_, ?_, ?_, ?_⟩
  · show (sweepRestaurants now st.restaurants st.orders st.items 0).1 = _
    exact sweepRestaurants_orders now st.restaurants st.orders st.items 0
  · intro o
    simp only [anyStale, List.any_eq_true, staleFor, Bool.and_eq_true, decide_eq_true_eq]
    constructor
    · rintro ⟨r, hr, hh⟩
      refine ⟨r, hr, ?_, ?_, ?_, ?_, ?_⟩ <;> tauto
    · rintro ⟨r, hr, h1, h2, h3, h4, h5⟩
      exact ⟨r, hr, ⟨⟨⟨⟨h1, h2⟩, h3⟩, h4⟩, h5⟩⟩
  · exact fun o ho h => deletedGroups_mem now st.restaurants st.orders o ho h
  · intro j
    rw [hitems]
    exact applyAll_stock_quantity_of DelLine.menu_item_id delAct _ st.items j
      (fun ls hls l hl it =>
        delAct_stock_quantity_of_unpaid l
          (deletedGroups_paid_false now st.restaurants st.orders ls hls l hl) it)
  · intro ls hls l hl hocc it t hit hstock hq
    have hpaid : l.paid = false :=
      deletedGroups_paid_false now st.restaurants st.orders ls hls l hl
    rw [hitems,
        applyAll_occ_one DelLine.menu_item_id delAct _ st.items ls l
          l.menu_item_id hocc hls hl rfl, hit]
    simp [delAct, hpaid, MenuItem.release_stock, hstock, hq]
  · intro j hocc
    rw [hitems]
    exact applyAll_occ_zero DelLine.menu_item_id delAct _ st.items j hocc

/-- Witness for C9, the spec §8 scenario: a cash `pending/pending` order
created at 23:00 local time holding 3 reserved units of item 1 is deleted by
a sweep run after local midnight; `reserved_stock` returns to 0 while
`stock_quantity` stays 10. -/
theorem C9_stale_cash_order_sweep_witness :
    ((cleanup_stale_pending_cash_orders 1500
        ⟨[⟨1, 0⟩], [⟨5, 1, "cash", "pending", "pending", 1380, [⟨1, 3⟩]⟩],
         fun j => if j = 1 then some ⟨some 10, 3, true, ""⟩ else none, 4⟩).1.orders = []) ∧
    ((cleanup_stale_pending_cash_orders 1500
        ⟨[⟨1, 0⟩], [⟨5, 1, "cash", "pending", "pending", 1380, [⟨1, 3⟩]⟩],
         fun j => if j = 1 then some ⟨some 10, 3, true, ""⟩ else none, 4⟩).1.items 1
      = some ⟨some 10, 0, true, ""⟩) := by
  have h := C9_stale_cash_order_sweep 1500
    ⟨[⟨1, 0⟩], [⟨5, 1, "cash", "pending", "pending", 1380, [⟨1, 3⟩]⟩],
     fun j => if j = 1 then some ⟨some 10, 3, true, ""⟩ else none, 4⟩
  constructor
  · rw [h.1]
    decide
  · have hmem := h.2.2.1 ⟨5, 1, "cash", "pending", "pending", 1380, [⟨1, 3⟩]⟩
      (List.mem_singleton.mpr rfl) (by decide)
    have h5 := h.2.2.2.2.1 _ hmem ⟨1, 3, false⟩ (by decide) (by decide)
      ⟨some 10, 3, true, ""⟩ 10 rfl rfl (by decide)
    rw [h5]
    decide

namespace DineFlow

/-- `DailyOrderSequence.get_next_sequence` (Backend apps/orders/models.py
lines 311-324): under the row lock, increment the day's `last_sequence`
(created at 0) and return it; returns (new counter value, returned value). -/
def get_next_sequence (last_sequence : Nat) : Nat × Nat :=
  (last_sequence + 1, last_sequence + 1)

/-- The values returned by `n` successive `get_next_sequence` calls against
a counter currently holding `s`. -/
def seqReturns (s : Nat) : Nat → List Nat
  | 0 => []
  | n + 1 => (get_next_sequence s).2 :: seqReturns (get_next_sequence s).1 n

/-- `generate_order_number` (Backend apps/core/utils.py lines 62-85). -/
def generate_order_number (daily_sequence : Nat) : Except String String :=
  if daily_sequence < 1 then .error "Daily sequence must be positive"
  else
    let letter_index := (daily_sequence - 1) / 99
    let number := (daily_sequence - 1) % 99 + 1
    let letter_index2 := if 26 ≤ letter_index then letter_index % 26 else letter_index
    let letter := Char.ofNat ('A'.toNat + letter_index2)
    .ok (String.singleton letter ++ toString number)

/-- The claim's closed-form order code, from the claim's words:
`chr('A' + ((s-1)//99) % 26)` followed by `((s-1)%99)+1`. -/
def claim_order_code (s : Nat) : String :=
  String.singleton (Char.ofNat ('A'.toNat + (s - 1) / 99 % 26)) ++ toString ((s - 1) % 99 + 1)

theorem seqReturns_eq_range' : ∀ (n s : Nat), seqReturns s n = List.range' (s + 1) n
  | 0, _ => rfl
  | n + 1, s => by
    rw [show seqReturns s (n + 1) = (s + 1) :: seqReturns (s + 1) n from rfl,
        seqReturns_eq_range' n (s + 1), List.range'_succ]

end DineFlow

/-- C10: every `get_next_sequence` call returns the stored `last_sequence`
plus one and stores that value, so successive calls from a fresh counter
return 1, 2, 3, ... — pairwise distinct and strictly increasing — the
counter is untouched by the order-deleting sweep, and for every sequence
`s ≥ 1` the order code equals `chr('A' + ((s-1)//99) % 26)` followed by
`((s-1) % 99) + 1`. -/
theorem C10_daily_sequence_and_order_code :
    (∀ s : Nat, get_next_sequence s = (s + 1, s + 1)) ∧
    (∀ n : Nat, seqReturns 0 n = List.range' 1 n) ∧
    (∀ n : Nat, List.Pairwise (· < ·) (seqReturns 0 n)) ∧
    (∀ n : Nat, (seqReturns 0 n).Nodup) ∧
    (∀ (now : Int) (st : CleanupState),
        (cleanup_stale_pending_cash_orders now st).1.last_sequence = st.last_sequence) ∧
    (∀ s : Nat, 1 ≤ s → generate_order_number s = .ok (claim_order_code s)) := by
  have hpair : ∀ n : Nat, List.Pairwise (· < ·) (seqReturns 0 n) := by
    intro n
    rw [seqReturns_eq_range']
    exact List.pairwise_lt_range' 1 n
  refine ⟨fun s => rfl, fun n => seqReturns_eq_range' n 0, hpair,
    fun n => (hpair n).imp ne_of_lt, fun now st => rfl, fun s hs => ?_⟩
  unfold generate_order_number claim_order_code
  rw [if_neg (by omega)]
  by_cases h26 : 26 ≤ (s - 1) / 99
  · simp [h26]
  · have hmod : (s - 1) / 99 % 26 = (s - 1) / 99 := Nat.mod_eq_of_lt (by omega)
    simp [h26, hmod]

/-- Witness for C10: three calls from a fresh counter return 1, 2, 3, and
the order codes for sequences 1, 100 and 2575 are "A1", "B1" and "A1"
(the accepted wraparound after 26×99 = 2574). -/
theorem C10_daily_sequence_and_order_code_witness :
    (seqReturns 0 3 = [1, 2, 3]) ∧
    (generate_order_number 1 = .ok "A1") ∧
    (generate_order_number 100 = .ok "B1") ∧
    (generate_order_number 2575 = .ok "A1") := by
  have h := C10_daily_sequence_and_order_code
  refine ⟨by rw [h.2.1 3]; rfl, ?_, ?_, ?_⟩
  · rw [h.2.2.2.2.2 1 (by omega)]; rfl
  · rw [h.2.2.2.2.2 100 (by omega)]; rfl
  · rw [h.2.2.2.2.2 2575 (by omega)]; rfl

namespace DineFlow

/-- The `MenuItem` variant of the Backend snapshot
(Backend apps/menu/models.py): stock is a single `stock_quantity` column
(no reservation counter), plus the lookup filters used by
`OrderCreateSerializer.create`. -/
structure BMenuItem where
  id : Nat
  restaurant_id : Nat
  name : String
  price : ℚ
  stock_quantity : Option Int
  is_available : Bool
  is_active : Bool
  deriving Repr, DecidableEq

/-- One line of the posted cart (`OrderItemCreateSerializer`). -/
structure CartLine where
  menu_item_id : Nat
  quantity : Int
  deriving Repr, DecidableEq

/-- One created `OrderItem` snapshot. -/
structure OItemSnap where
  menu_item_name : String
  price_at_order : ℚ
  quantity : Int
  subtotal : ℚ
  deriving Repr, DecidableEq

/-- The `serializers.ValidationError` payloads `OrderCreateSerializer.create`
can raise (Backend apps/orders/serializers.py lines 188-206): an unavailable
or missing item, or the structured insufficient-stock error with keys
`code`, `item_id`, `item_name`, `available_quantity`, `message`. -/
inductive CreateErr
  | itemNotFound (menu_item_id : Nat)
  | insufficientStock (code : String) (item_id : Nat) (item_name : String)
      (available_quantity : Int) (message : String)
  deriving Repr, DecidableEq

/-- The Backend menu-item table. -/
def BItemDB : Type := Nat → Option BMenuItem

/-- The `select_for_update().get(id=..., restaurant=restaurant,
is_active=True, is_available=True)` lookup (serializers.py lines 182-187). -/
def lookupItem (db : BItemDB) (rid iid : Nat) : Option BMenuItem :=
  match db iid with
  | none => none
  | some it =>
    if it.restaurant_id = rid ∧ it.is_active = true ∧ it.is_available = true then some it
    else none

/-- The per-line loop of `OrderCreateSerializer.create` (serializers.py
lines 179-222): look the item up, run the stock check, decrement
`stock_quantity`, and accumulate the subtotal and the `OrderItem`
snapshots.  An `.error` result aborts the enclosing `transaction.atomic`
block, so the caller's table and counter are the unchanged pre-transaction
ones — no partial stock decrement survives. -/
def processLines (rid : Nat) : List CartLine → BItemDB → ℚ → List OItemSnap →
    Except CreateErr (BItemDB × ℚ × List OItemSnap)
  | [], db, subtotal, acc => .ok (db, subtotal, acc)
  | l :: ls, db, subtotal, acc =>
    match lookupItem db rid l.menu_item_id with
    | none => .error (.itemNotFound l.menu_item_id)
    | some it =>
      match it.stock_quantity with
      | some sq =>
        if sq < l.quantity then
          .error (.insufficientStock "INSUFFICIENT_STOCK" it.id it.name sq
            ("Only " ++ toString sq ++ " units of " ++ it.name ++ " are available."))
        else
          processLines rid ls
            (fun j => if j = l.menu_item_id then
                some { it with stock_quantity := some (sq - l.quantity) }
              else db j)
            (subtotal + it.price * (l.quantity : ℚ))
            (acc ++ [⟨it.name, it.price, l.quantity, it.price * (l.quantity : ℚ)⟩])
      | none =>
        processLines rid ls db (subtotal + it.price * (l.quantity : ℚ))
          (acc ++ [⟨it.name, it.price, l.quantity, it.price * (l.quantity : ℚ)⟩])

/-- The `Order` row materialized by `OrderCreateSerializer.create`
(serializers.py lines 234-250). -/
structure BOrder where
  order_number : String
  daily_sequence : Nat
  customer_name : String
  status : String
  payment_method : String
  payment_status : String
  subtotal : ℚ
  tax : ℚ
  total_amount : ℚ
  items : List OItemSnap
  deriving Repr, DecidableEq

/-- `OrderCreateSerializer.create` (serializers.py lines 163-256): one
`transaction.atomic` block taking the next daily sequence, processing every
cart line, computing `tax = subtotal * tax_rate` and materializing the
pending/pending order; any `ValidationError` aborts the whole block. -/
def order_create (rid : Nat) (tax_rate : ℚ) (customer_name payment_method : String)
    (lines : List CartLine) (db : BItemDB) (last_seq : Nat) :
    Except CreateErr (BItemDB × Nat × BOrder) :=
  let seq := (get_next_sequence last_seq).2
  match generate_order_number seq with
  | .error _ => .error (.itemNotFound 0)
  | .ok onum =>
    match processLines rid lines db 0 [] with
    | .error e => .error e
    | .ok (db', subtotal, oitems) =>
      let tax := subtotal * tax_rate
      .ok (db', seq,
        ⟨onum, seq, customer_name, "pending", payment_method, "pending",
         subtotal, tax, subtotal + tax, oitems⟩)

end DineFlow

namespace DineFlow

/-- The order-number helper never fails on a freshly incremented sequence. -/
theorem generate_order_number_succ_ok (n : Nat) :
    ∃ s, generate_order_number (n + 1) = .ok s := by
  unfold generate_order_number
  rw [if_neg (by omega)]
  exact ⟨_, rfl⟩

end DineFlow

/-- C7 counterexample: the insufficient-stock error does not identify the
requested quantity.  Requesting 2 and requesting 3 units of a "Margherita"
with `stock_quantity = 1` produce the identical error value (code,
item id, item name, available quantity and message — no requested field),
so the claimed `requested` component cannot be part of what the caller
receives. -/
theorem C7_requested_quantity_counterexample :
    (order_create 1 (2/25) "Alice" "cash" [⟨1, 2⟩]
        (fun j => if j = 1 then some ⟨1, 1, "Margherita", 350, some 1, true, true⟩ else none) 0
      = order_create 1 (2/25) "Alice" "cash" [⟨1, 3⟩]
        (fun j => if j = 1 then some ⟨1, 1, "Margherita", 350, some 1, true, true⟩ else none) 0) ∧
    (order_create 1 (2/25) "Alice" "cash" [⟨1, 2⟩]
        (fun j => if j = 1 then some ⟨1, 1, "Margherita", 350, some 1, true, true⟩ else none) 0
      = .error (.insufficientStock "INSUFFICIENT_STOCK" 1 "Margherita" 1
          "Only 1 units of Margherita are available.")) ∧
    ([⟨1, 2⟩] : List CartLine) ≠ [⟨1, 3⟩] :=
  ⟨rfl, rfl, by decide⟩

/-- C7 (amended): when a cart line fails the stock check, the whole creation
fails — the `transaction.atomic` embedding returns no state, so no Order
exists and every stock decrement already made for earlier lines of the same
cart is rolled back — and the caller receives a structured error with code
INSUFFICIENT_STOCK identifying the offending item (id and name) and its
available quantity; the requested quantity is not part of the error. -/
theorem C7_insufficient_stock_aborts_creation :
    (∀ (rid : Nat) (l : CartLine) (ls : List CartLine) (db : BItemDB) (subtotal : ℚ)
        (acc : List OItemSnap) (it : BMenuItem) (sq : Int),
        lookupItem db rid l.menu_item_id = some it → it.stock_quantity = some sq →
        sq < l.quantity →
        processLines rid (l :: ls) db subtotal acc
          = .error (.insufficientStock "INSUFFICIENT_STOCK" it.id it.name sq
              ("Only " ++ toString sq ++ " units of " ++ it.name ++ " are available."))) ∧
    (∀ (rid : Nat) (l : CartLine) (ls : List CartLine) (db : BItemDB) (subtotal : ℚ)
        (acc : List OItemSnap) (it : BMenuItem) (sq : Int),
        lookupItem db rid l.menu_item_id = some it → it.stock_quantity = some sq →
        ¬ sq < l.quantity →
        processLines rid (l :: ls) db subtotal acc
          = processLines rid ls
              (fun j => if j = l.menu_item_id then
                  some { it with stock_quantity := some (sq - l.quantity) }
                else db j)
              (subtotal + it.price * (l.quantity : ℚ))
              (acc ++ [⟨it.name, it.price, l.quantity, it.price * (l.quantity : ℚ)⟩])) ∧
    (∀ (rid : Nat) (tax_rate : ℚ) (cn pm : String) (lines : List CartLine)
        (db : BItemDB) (last_seq : Nat) (e : CreateErr),
        processLines rid lines db 0 [] = .error e →
        order_create rid tax_rate cn pm lines db last_seq = .error e) := by
  refine ⟨fun rid l ls db subtotal acc it sq hlk hsq hlt => ?_,
    fun rid l ls db subtotal acc it sq hlk hsq hge => ?_,
    fun rid tax_rate cn pm lines db last_seq e hp => ?_⟩
  · simp only [processLines, hlk, hsq, if_pos hlt]
  · simp only [processLines, hlk, hsq, if_neg hge]
  · obtain ⟨s, hs⟩ := generate_order_number_succ_ok last_seq
    simp only [order_create, get_next_sequence, hs, hp]

/-- Witness for the amended C7 at the spec scenario: a cart of 2 Margherita
against `stock_quantity = 1` makes `order_create` fail with the structured
insufficient-stock error naming the item and its available quantity 1. -/
theorem C7_insufficient_stock_aborts_creation_witness :
    order_create 1 (2/25) "Alice" "cash" [⟨1, 2⟩]
        (fun j => if j = 1 then some ⟨1, 1, "Margherita", 350, some 1, true, true⟩ else none) 0
      = .error (.insufficientStock "INSUFFICIENT_STOCK" 1 "Margherita" 1
          "Only 1 units of Margherita are available.") := by
  have h := C7_insufficient_stock_aborts_creation
  refine h.2.2 1 (2/25) "Alice" "cash" [⟨1, 2⟩]
    (fun j => if j = 1 then some ⟨1, 1, "Margherita", 350, some 1, true, true⟩ else none) 0 _ ?_
  have h1 := h.1 1 ⟨1, 2⟩ []
    (fun j => if j = 1 then some ⟨1, 1, "Margherita", 350, some 1, true, true⟩ else none) 0 []
    ⟨1, 1, "Margherita", 350, some 1, true, true⟩ 1 rfl rfl (by decide)
  exact h1

namespace DineFlow

/-- The cached payment session `InitiateUPIPaymentView` stores under the
payment token (Orderflow apps/orders/public_views.py lines 376-392). -/
structure UPICache where
  reservation_id : Nat
  restaurant_id : Nat
  amount : ℚ
  razorpay_order_id : String
  deriving Repr, DecidableEq

/-- One `OrderItem` row created by the verify step (public_views.py lines
520-528). -/
structure UPIOrderItem where
  menu_item_id : Nat
  menu_item_name : String
  price_at_order : ℚ
  quantity : Int
  subtotal : ℚ
  deriving Repr, DecidableEq

/-- The `Order` row created by the verify step with the columns it sets
(public_views.py lines 493-509); tenant/preference columns are elided. -/
structure UPIOrder where
  order_number : String
  daily_sequence : Nat
  customer_name : String
  status : String
  payment_method : String
  payment_status : String
  payment_id : String
  subtotal : ℚ
  tax : ℚ
  total_amount : ℚ
  items : List UPIOrderItem
  deriving Repr, DecidableEq

/-- The durable state `VerifyUPIPaymentView.post` touches: the menu-item
table, the reservation being converted, its cached payment session, the
daily sequence counter, and the orders table. -/
structure UPIState where
  items : ItemDB
  reservation : OrderReservation
  cache : Option UPICache
  last_sequence : Nat
  orders : List UPIOrder

/-- The responses of `VerifyUPIPaymentView.post`: the 400s for a missing
cache entry ("Session expired."), an order-id mismatch, and a failed
verification or fetch; the idempotency success ("Already paid."); and the
201 with the created order. -/
inductive UPIResp
  | sessionExpired
  | orderIdMismatch
  | verificationFailed
  | alreadyPaid
  | created (order_number : String) (total : ℚ)
  deriving Repr, DecidableEq

/-- The per-line stock effect of the verify step: `confirm_sale(quantity)`
on the line's item, skipping lines whose item row no longer exists. -/
def confirmAct (l : ResLine) (it : MenuItem) : MenuItem :=
  (it.confirm_sale l.quantity).1

/-- `VerifyUPIPaymentView.post` = `mark_paid` (public_views.py lines
438-551).  `sig_ok` is the gateway oracle for
`verify_payment_signature` (an exception lands in the outer handler as a
400).  The happy path is one `transaction.atomic` block: confirm each
reserved line's sale, flip the reservation to PAID, take the next daily
sequence, materialize the Order (`subtotal := reservation.total_amount`,
`tax := 0.00`, `total_amount := reservation.total_amount`) and its items
from the reservation snapshot; afterwards the cache entry is deleted. -/
def mark_paid (sig_ok : Bool) (req_order_id pay_id : String) (st : UPIState) :
    UPIState × UPIResp :=
  match st.cache with
  | none => (st, .sessionExpired)
  | some c =>
    if c.razorpay_order_id ≠ req_order_id then (st, .orderIdMismatch)
    else if sig_ok then
      if st.reservation.id ≠ c.reservation_id then (st, .verificationFailed)
      else if st.reservation.status = ResStatus.PAID then (st, .alreadyPaid)
      else
        let items' := applyLines ResLine.menu_item_id confirmAct st.items st.reservation.items
        let seq := st.last_sequence + 1
        match generate_order_number seq with
        | .error _ => (st, .verificationFailed)
        | .ok onum =>
          let order : UPIOrder :=
            ⟨onum, seq, st.reservation.customer_name, "preparing",
             st.reservation.payment_method, "success", pay_id,
             st.reservation.total_amount, 0, st.reservation.total_amount,
             st.reservation.items.map (fun l =>
               ⟨l.menu_item_id, l.name, l.price, l.quantity, l.line_subtotal⟩)⟩
          (⟨items', { st.reservation with status := ResStatus.PAID }, none, seq,
            st.orders ++ [order]⟩,
           .created onum st.reservation.total_amount)
    else (st, .verificationFailed)

end DineFlow

/-- C1, evaluated at the spec §8 scenario (the failing input): a verified
payment on an ACTIVE reservation of 2×Margherita at 350.00 (line subtotal
700.00, reservation total 756.00 at tax rate 8%) confirms the sale on the
reserved line (item 1 goes from 5 total / 2 reserved to 3 / 0), takes daily
sequence 1, flips the reservation to PAID and materializes exactly one
Order "A1" with `status = preparing`, `payment_status = success` — but the
order's money columns are `subtotal = 756.00, tax = 0.00`, not the
reservation-time `subtotal = 700.00, tax = 56.00` the claim requires:
public_views.py lines 506-508 store `subtotal := reservation.total_amount`
and `tax := 0.00` instead of carrying the snapshotted split. -/
theorem C1_mark_paid_materialization_at_failing_input :
    ((mark_paid true "rzp_1" "pay_9"
        ⟨fun j => if j = 1 then some ⟨some 5, 2, true, ""⟩ else none,
         ⟨10, 1, [⟨1, 2, "Margherita", 350, 700⟩], 756, ResStatus.ACTIVE, 999,
           "Alice", "T1", "upi"⟩,
         some ⟨10, 1, 756, "rzp_1"⟩, 0, []⟩).2 = .created "A1" 756) ∧
    ((mark_paid true "rzp_1" "pay_9"
        ⟨fun j => if j = 1 then some ⟨some 5, 2, true, ""⟩ else none,
         ⟨10, 1, [⟨1, 2, "Margherita", 350, 700⟩], 756, ResStatus.ACTIVE, 999,
           "Alice", "T1", "upi"⟩,
         some ⟨10, 1, 756, "rzp_1"⟩, 0, []⟩).1.reservation.status = ResStatus.PAID) ∧
    ((mark_paid true "rzp_1" "pay_9"
        ⟨fun j => if j = 1 then some ⟨some 5, 2, true, ""⟩ else none,
         ⟨10, 1, [⟨1, 2, "Margherita", 350, 700⟩], 756, ResStatus.ACTIVE, 999,
           "Alice", "T1", "upi"⟩,
         some ⟨10, 1, 756, "rzp_1"⟩, 0, []⟩).1.last_sequence = 1) ∧
    ((mark_paid true "rzp_1" "pay_9"
        ⟨fun j => if j = 1 then some ⟨some 5, 2, true, ""⟩ else none,
         ⟨10, 1, [⟨1, 2, "Margherita", 350, 700⟩], 756, ResStatus.ACTIVE, 999,
           "Alice", "T1", "upi"⟩,
         some ⟨10, 1, 756, "rzp_1"⟩, 0, []⟩).1.items 1 = some ⟨some 3, 0, true, ""⟩) ∧
    ((mark_paid true "rzp_1" "pay_9"
        ⟨fun j => if j = 1 then some ⟨some 5, 2, true, ""⟩ else none,
         ⟨10, 1, [⟨1, 2, "Margherita", 350, 700⟩], 756, ResStatus.ACTIVE, 999,
           "Alice", "T1", "upi"⟩,
         some ⟨10, 1, 756, "rzp_1"⟩, 0, []⟩).1.orders =
      [⟨"A1", 1, "Alice", "preparing", "upi", "success", "pay_9", 756, 0, 756,
        [⟨1, "Margherita", 350, 2, 700⟩]⟩]) ∧
    ((350 : ℚ) * 2 = 700 ∧ (700 : ℚ) * (8 / 100) = 56) ∧
    ((0 : ℚ) ≠ 56 ∧ (756 : ℚ) ≠ 700) := by
  refine ⟨rfl, rfl, rfl, by decide, by decide, by norm_num, by norm_num⟩

/-- C2 counterexample: after a successful `mark_paid` the cached payment
session is deleted (public_views.py line 542), so a second call with the
same payment assertion gets the 400 "Session expired." response — not the
claimed success — even though no second Order and no further `confirm_sale`
are produced (the state is untouched). -/
theorem C2_second_mark_paid_not_success_counterexample :
    ((mark_paid true "rzp_1" "pay_9"
        (mark_paid true "rzp_1" "pay_9"
          ⟨fun j => if j = 1 then some ⟨some 5, 2, true, ""⟩ else none,
           ⟨10, 1, [⟨1, 2, "Margherita", 350, 700⟩], 756, ResStatus.ACTIVE, 999,
             "Alice", "T1", "upi"⟩,
           some ⟨10, 1, 756, "rzp_1"⟩, 0, []⟩).1)
      = ((mark_paid true "rzp_1" "pay_9"
          ⟨fun j => if j = 1 then some ⟨some 5, 2, true, ""⟩ else none,
           ⟨10, 1, [⟨1, 2, "Margherita", 350, 700⟩], 756, ResStatus.ACTIVE, 999,
             "Alice", "T1", "upi"⟩,
           some ⟨10, 1, 756, "rzp_1"⟩, 0, []⟩).1, UPIResp.sessionExpired)) ∧
    ((mark_paid true "rzp_1" "pay_9"
        ⟨fun j => if j = 1 then some ⟨some 5, 2, true, ""⟩ else none,
         ⟨10, 1, [⟨1, 2, "Margherita", 350, 700⟩], 756, ResStatus.ACTIVE, 999,
           "Alice", "T1", "upi"⟩,
         some ⟨10, 1, 756, "rzp_1"⟩, 0, []⟩).2 = .created "A1" 756) ∧
    (UPIResp.sessionExpired ≠ UPIResp.alreadyPaid) ∧
    (UPIResp.sessionExpired ≠ .created "A1" 756) := by
  refine ⟨rfl, rfl, by decide, by decide⟩

/-- C2 (amended): a verified `mark_paid` on an ACTIVE reservation
materializes exactly one new Order, applies `confirm_sale` exactly once per
reserved line, flips the reservation to PAID and deletes the cached
session; a second call with the same payment assertion never materializes a
second Order nor re-invokes `confirm_sale` — the state is returned
untouched — but in the normal flow it answers the 400 "Session expired."
error (the cache entry is gone), and only if the cached session is still
present does the idempotency guard answer success ("Already paid."). -/
theorem C2_mark_paid_idempotent (st : UPIState) (c : UPICache) (req pay : String)
    (hc : st.cache = some c) (hroid : c.razorpay_order_id = req)
    (hrid : st.reservation.id = c.reservation_id)
    (hact : st.reservation.status = ResStatus.ACTIVE) :
    ((mark_paid true req pay st).1.orders.length = st.orders.length + 1) ∧
    ((mark_paid true req pay st).1.reservation.status = ResStatus.PAID) ∧
    ((mark_paid true req pay st).1.cache = none) ∧
    ((mark_paid true req pay st).1.items
      = applyLines ResLine.menu_item_id confirmAct st.items st.reservation.items) ∧
    (mark_paid true req pay (mark_paid true req pay st).1
      = ((mark_paid true req pay st).1, UPIResp.sessionExpired)) ∧
    (∀ st2 : UPIState, st2.cache = some c → st2.reservation.id = c.reservation_id →
        st2.reservation.status = ResStatus.PAID →
        mark_paid true req pay st2 = (st2, UPIResp.alreadyPaid)) := by
  obtain ⟨s, hs⟩ := generate_order_number_succ_ok st.last_sequence
  have hne : ¬ (c.razorpay_order_id ≠ req) := fun h => h hroid
  have hne2 : ¬ (st.reservation.id ≠ c.reservation_id) := fun h => h hrid
  have hnp : ¬ (st.reservation.status = ResStatus.PAID) := by rw [hact]; decide
  have h1 : mark_paid true req pay st =
      (⟨applyLines ResLine.menu_item_id confirmAct st.items st.reservation.items,
        { st.reservation with status := ResStatus.PAID }, none, st.last_sequence + 1,
        st.orders ++ [⟨s, st.last_sequence + 1, st.reservation.customer_name, "preparing",
          st.reservation.payment_method, "success", pay,
          st.reservation.total_amount, 0, st.reservation.total_amount,
          st.reservation.items.map (fun l =>
            ⟨l.menu_item_id, l.name, l.price, l.quantity, l.line_subtotal⟩)⟩]⟩,
       .created s st.reservation.total_amount) := by
    simp only [mark_paid, hc]
    rw [if_neg hne, if_pos trivial, if_neg hne2, if_neg hnp, hs]
  refine ⟨?_, ?_, ?_, ?_, ?_, ?_⟩
  · rw [h1]
    simp
  · rw [h1]
  · rw [h1]
  · rw [h1]
  · rw [h1]
    rfl
  · intro st2 h2c h2rid h2paid
    have hne3 : ¬ (st2.reservation.id ≠ c.reservation_id) := fun h => h h2rid
    simp only [mark_paid, h2c]
    rw [if_neg hne, if_pos trivial, if_neg hne3, if_pos h2paid]

/-- Witness for the amended C2 at the spec scenario: the first verified
call creates exactly one order, the retry returns the session-expired
rejection with the state untouched, and a PAID reservation whose session
is still cached gets the "Already paid." success. -/
theorem C2_mark_paid_idempotent_witness :
    ((mark_paid true "rzp_1" "pay_9"
        ⟨fun j => if j = 1 then some ⟨some 5, 2, true, ""⟩ else none,
         ⟨10, 1, [⟨1, 2, "Margherita", 350, 700⟩], 756, ResStatus.ACTIVE, 999,
           "Alice", "T1", "upi"⟩,
         some ⟨10, 1, 756, "rzp_1"⟩, 0, []⟩).1.orders.length = 1) ∧
    (mark_paid true "rzp_1" "pay_9"
        ⟨fun j => if j = 1 then some ⟨some 5, 2, true, ""⟩ else none,
         ⟨10, 1, [⟨1, 2, "Margherita", 350, 700⟩], 756, ResStatus.PAID, 999,
           "Alice", "T1", "upi"⟩,
         some ⟨10, 1, 756, "rzp_1"⟩, 0, []⟩
      = (⟨fun j => if j = 1 then some ⟨some 5, 2, true, ""⟩ else none,
         ⟨10, 1, [⟨1, 2, "Margherita", 350, 700⟩], 756, ResStatus.PAID, 999,
           "Alice", "T1", "upi"⟩,
         some ⟨10, 1, 756, "rzp_1"⟩, 0, []⟩, UPIResp.alreadyPaid)) := by
  have h := C2_mark_paid_idempotent
    ⟨fun j => if j = 1 then some ⟨some 5, 2, true, ""⟩ else none,
     ⟨10, 1, [⟨1, 2, "Margherita", 350, 700⟩], 756, ResStatus.ACTIVE, 999,
       "Alice", "T1", "upi"⟩,
     some ⟨10, 1, 756, "rzp_1"⟩, 0, []⟩
    ⟨10, 1, 756, "rzp_1"⟩ "rzp_1" "pay_9" rfl rfl rfl rfl
  exact ⟨by simpa using h.1, h.2.2.2.2.2
    ⟨fun j => if j = 1 then some ⟨some 5, 2, true, ""⟩ else none,
     ⟨10, 1, [⟨1, 2, "Margherita", 350, 700⟩], 756, ResStatus.PAID, 999,
       "Alice", "T1", "upi"⟩,
     some ⟨10, 1, 756, "rzp_1"⟩, 0, []⟩ rfl rfl rfl⟩
